import Mathlib

/-!
Verification of the Voltz risk-engine core (`RiskMetrics.py`) against its
natural-language specification.

Floating-point values are embedded as rationals (`ℚ`); pandas series as
`List ℚ`; the input DataFrame as a list of rows `(liquidation, margin, pnl)`.
Fallible operations (Python exceptions) return `Except String _`.

Third-party statistical routines (`numpy.random.RandomState`,
`arch.bootstrap.CircularBlockBootstrap`, `arch.bootstrap.optimal_block_length`)
are not part of the repository; they are modelled from the behaviour the
specification describes for them (see the individual doc comments).
-/

set_option maxRecDepth 8000

namespace RiskMetrics

/-- Z-score lookup table, from `self.z_scores = {95: 1.96, 99: 2.58}`
(`RiskMetrics.__init__`, lines 18–21).  A Python dict lookup `z_scores[alpha]`
raises `KeyError` on a missing key, hence the `Option`. -/
def z_scores (alpha : ℕ) : Option ℚ :=
  if alpha = 95 then some (196/100)
  else if alpha = 99 then some (258/100)
  else none

/-- One row of the input DataFrame: the values of the liquidation-margin,
margin and PnL columns at one time step. -/
structure Row where
  liq : ℚ
  margin : ℚ
  pnl : ℚ
deriving DecidableEq, Repr

/-- The state built by `RiskMetrics.__init__` (lines 17–35): the stored
pool size, stored (possibly truncated) DataFrame, notional, and the three
retained series. -/
structure State where
  pool_size : ℕ
  df : List Row
  notional : ℚ
  liquidation_series : List ℚ
  margin_series : List ℚ
  pnl_series : List ℚ
deriving DecidableEq, Repr

/-- Embedding of `RiskMetrics.__init__` (lines 17–35).  When `pool_size` is `None` the full
frame is kept; otherwise `self.df = df.iloc[:pool_size]`.  The three series are
extracted with `df[...]` — from the constructor argument `df`, not from the
truncated `self.df` — exactly as the source does. -/
def init (df : List Row) (notional : ℚ) (pool_size : Option ℕ) : State :=
  { pool_size := pool_size.getD df.length
    df := match pool_size with
          | none => df
          | some p => df.take p
    notional := notional
    liquidation_series := df.map Row.liq
    margin_series := df.map Row.margin
    pnl_series := df.map Row.pnl }

/-- Embedding of `RiskMetrics.liquidation` (lines 43–44):
`(margin_series.iloc[0] - liquidation_series) / margin_series.iloc[0]`,
broadcast over the series. -/
def liquidation (margin_series liquidation_series : List ℚ) : List ℚ :=
  liquidation_series.map (fun x => (margin_series.headD 0 - x) / margin_series.headD 0)

/-- Embedding of `RiskMetrics.insolvency` (lines 52–53):
`(pnl_series + margin_series.iloc[0]) / margin_series.iloc[0]`,
broadcast over the series. -/
def insolvency (margin_series pnl_series : List ℚ) : List ℚ :=
  pnl_series.map (fun x => (x + margin_series.headD 0) / margin_series.headD 0)

/-- Embedding of `RiskMetrics.get_random` (lines 59–63) as a function of the two random
draws it consumes: `exp = random.randint(-5, -2)` (an integer in `[-5, -2]`,
both ends included) and `random.random()` (a uniform draw `u ∈ [0, 1)`);
the result is `(0.9·u + 0.1) · 10^exp`. -/
def get_random (e : ℤ) (u : ℚ) : ℚ :=
  (9/10 * u + 1/10) * (10 : ℚ) ^ e

/-- Python `int(x)` for a float/rational `x`: truncation toward zero
(`⌊x⌋` for nonnegative `x`, `⌈x⌉` for negative `x`). -/
def pyInt (x : ℚ) : ℤ :=
  if 0 ≤ x then ⌊x⌋ else ⌈x⌉

/-- On nonnegative arguments, Python truncation agrees with the floor used in
the specification wording. -/
theorem pyInt_eq_floor_of_nonneg (x : ℚ) (hx : 0 ≤ x) : pyInt x = ⌊x⌋ := by
  unfold pyInt
  rw [if_pos hx]

/-- The block-length clamp applied to a raw optimal-block-length estimate
(`int(time_delta)+1`, `RiskMetrics.generate_replicates`, lines 83–84). -/
def clampBlockLength (estimate : ℚ) : ℤ :=
  pyInt estimate + 1

/-- Arithmetic mean of a series (`numpy .mean()`); mean of the empty list is
taken as `0` (numpy would return NaN, which never arises on the non-empty
inputs considered here). -/
def listMean (xs : List ℚ) : ℚ :=
  xs.sum / xs.length

/-- Population variance (`numpy .std()` squared, `ddof = 0`). -/
def popVariance (xs : List ℚ) : ℚ :=
  (xs.map (fun x => (x - listMean xs) ^ 2)).sum / xs.length

/-- Embedding of `RiskMetrics.lvar_and_ivar` (lines 111–123), with the replicate sets
supplied by the caller.  The numpy `.std()` routine (a real square root, not exactly
representable in `ℚ`) is abstracted as the parameter `stdFn`; theorems
constrain `stdFn` on the lists where it is used by the defining equation
`stdFn xs * stdFn xs = popVariance xs`, `0 ≤ stdFn xs` of the population
standard deviation.  The first statement executed is the dict lookup
`z_score = self.z_scores[alpha]`, which raises `KeyError` for an alpha
outside the table, before any statistics are computed. -/
def lvar_and_ivar (stdFn : List ℚ → ℚ) (alpha : ℕ)
    (l_rep i_rep : List (List ℚ)) : Except String (ℚ × ℚ) :=
  match z_scores alpha with
  | none => Except.error "KeyError: unsupported confidence level"
  | some z =>
      let l_dist := l_rep.map listMean
      let i_dist := i_rep.map listMean
      let l_mu := listMean l_dist
      let i_mu := listMean i_dist
      let l_sig := stdFn l_dist
      let i_sig := stdFn i_dist
      Except.ok (-z * l_sig + l_mu, -z * i_sig + i_mu)

/-- Embedding of `RiskMetrics.leverages` (lines 128–134), with `l_var`, `i_var` supplied:
`l_lev = notional·(1 − l_var) / liquidation_series.iloc[0]`,
`i_lev = notional·(i_var − 1) / pnl_series.iloc[-1]`. -/
def leverages (notional l_var i_var liq0 pnlLast : ℚ) : ℚ × ℚ :=
  (notional * (1 - l_var) / liq0, notional * (i_var - 1) / pnlLast)

/-- The keyword parameters accepted by `RiskMetrics.leverages`
(`def leverages(self, l_var=None, i_var=None)`, line 128). -/
def leveragesKeywords : List String := ["l_var", "i_var"]

/-- The `min` selection in the body of `RiskMetrics.recommended_leverage`
(lines 142–145): `l_lev if l_lev < i_lev else i_lev`. -/
def recommendedLeverageMin (l_lev i_lev : ℚ) : ℚ :=
  if l_lev < i_lev then l_lev else i_lev

/-- Embedding of `RiskMetrics.recommended_leverage` (lines 140–145).  Its body calls
`self.leverages(time_horizon=time_horizon)`.  Python keyword-argument
binding rejects a keyword that is not a parameter of the callee, so the call
raises `TypeError` before `leverages` runs; only if the keyword were accepted
would the `min` selection be reached. -/
def recommended_leverage (notional liq0 pnlLast l_var i_var : ℚ) :
    Except String ℚ :=
  if "time_horizon" ∈ leveragesKeywords then
    let p := leverages notional l_var i_var liq0 pnlLast
    Except.ok (recommendedLeverageMin p.1 p.2)
  else
    Except.error "TypeError: leverages() got an unexpected keyword argument time_horizon"

/-- Modelled from the spec: `numpy.random.RandomState` is a seeded
deterministic pseudo-random number generator (the spec mandates only that a
fixed seed makes the draw stream reproducible); its internal state is modelled
as a natural number advanced by a linear-congruential step. -/
def rngNext (s : ℕ) : ℕ :=
  (1103515245 * s + 12345) % 2 ^ 31

/-- Modelled from the spec: constructing `np.random.RandomState(seed)`
(line 71, `rs = np.random.RandomState(42)`) initialises the generator state
deterministically from the seed. -/
def mkRandomState (seed : ℕ) : ℕ :=
  seed % 2 ^ 31

/-- Modelled from the spec: one uniform draw of a starting index in `[0, n)`
from the generator, returning the index and the advanced state. -/
def drawIndex (s n : ℕ) : ℕ × ℕ :=
  (rngNext s % n, rngNext s)

/-- The contiguous wrapping block of length `B` of `x` starting at `start`
(the series is treated as circular: index `L` wraps to `0`). -/
def wrapBlock (x : List ℚ) (start B : ℕ) : List ℚ :=
  (List.range B).map (fun j => x.getD ((start + j) % x.length) 0)

/-- Modelled from the spec: building one circular-block-bootstrap replicate
(spec §4.4): repeatedly draw a uniform start index, append the wrapping block
of length `B` starting there, until the replicate reaches the input length,
truncating the final block.  `fuel` bounds the number of draws (the caller
passes `x.length`, enough whenever `B ≥ 1`).  Returns the replicate and the
advanced generator state. -/
def buildReplicate (x : List ℚ) (B : ℕ) : ℕ → ℕ → List ℚ → List ℚ × ℕ
  | 0, s, acc => (acc.take x.length, s)
  | fuel + 1, s, acc =>
      if x.length ≤ acc.length then (acc.take x.length, s)
      else
        let p := drawIndex s x.length
        buildReplicate x B fuel p.2 (acc ++ wrapBlock x p.1 B)

/-- Modelled from the spec: `CircularBlockBootstrap(...).bootstrap(N)`
(spec §4.4) produces `N` replicates in sequence, threading the generator
state through consecutive replicates. -/
def bootstrapN (x : List ℚ) (B : ℕ) : ℕ → ℕ → List (List ℚ) × ℕ
  | 0, s => ([], s)
  | n + 1, s =>
      let r := buildReplicate x B x.length s []
      let rest := bootstrapN x B n r.2
      (r.1 :: rest.1, rest.2)

/-- The execution relation of one replicate build: from generator state `s`
and accumulated samples `acc`, the bootstrapper either finishes (the
accumulator has reached the input length; the replicate is its truncation)
or draws a start index, appends the wrapping block and continues.  The only
nondeterminism a run could have is the random draws, and these are fixed by
the seeded generator state. -/
inductive BuildRepRel (x : List ℚ) (B : ℕ) : ℕ → List ℚ → List ℚ × ℕ → Prop
  | done (s : ℕ) (acc : List ℚ) (h : x.length ≤ acc.length) :
      BuildRepRel x B s acc (acc.take x.length, s)
  | step (s : ℕ) (acc : List ℚ) (out : List ℚ × ℕ) (idx s' : ℕ)
      (h : acc.length < x.length)
      (hdraw : drawIndex s x.length = (idx, s'))
      (hrec : BuildRepRel x B s' (acc ++ wrapBlock x idx B) out) :
      BuildRepRel x B s acc out

/-- The execution relation of a whole bootstrap call: `N` replicate builds in
sequence, each starting from an empty accumulator, threading the generator
state. -/
inductive BootstrapRel (x : List ℚ) (B : ℕ) : ℕ → ℕ → List (List ℚ) × ℕ → Prop
  | nil (s : ℕ) : BootstrapRel x B 0 s ([], s)
  | cons (n s : ℕ) (rep : List ℚ) (s₁ : ℕ) (rest : List (List ℚ)) (s₂ : ℕ)
      (hrep : BuildRepRel x B s [] (rep, s₁))
      (hrest : BootstrapRel x B n s₁ (rest, s₂)) :
      BootstrapRel x B (n + 1) s (rep :: rest, s₂)

/-- Any two runs of one replicate build from the same generator state and
accumulator produce the same replicate and final state. -/
theorem buildRepRel_deterministic {x : List ℚ} {B : ℕ} {s : ℕ} {acc : List ℚ}
    {o₁ : List ℚ × ℕ} (h₁ : BuildRepRel x B s acc o₁) :
    ∀ o₂ : List ℚ × ℕ, BuildRepRel x B s acc o₂ → o₁ = o₂ := by
  induction h₁ with
  | done s acc h =>
      intro o₂ h₂
      cases h₂ with
      | done => rfl
      | step =>
          rename_i hdraw' h' hrec'
          exact absurd h (not_le.mpr h')
  | step s acc out idx s' h hdraw hrec ih =>
      intro o₂ h₂
      cases h₂ with
      | done =>
          rename_i h'
          exact absurd h' (not_le.mpr h)
      | step =>
          rename_i idx' s'' hdraw' h' hrec'
          rw [hdraw, Prod.mk.injEq] at hdraw'
          obtain ⟨hi, hs⟩ := hdraw'
          subst hi
          subst hs
          exact ih _ hrec'

/-- Any two runs of a whole bootstrap call from the same generator state
produce the same replicate set and final state. -/
theorem bootstrapRel_deterministic {x : List ℚ} {B : ℕ} {N : ℕ} {s : ℕ}
    {o₁ : List (List ℚ) × ℕ} (h₁ : BootstrapRel x B N s o₁) :
    ∀ o₂ : List (List ℚ) × ℕ, BootstrapRel x B N s o₂ → o₁ = o₂ := by
  induction h₁ with
  | nil s =>
      intro o₂ h₂
      cases h₂
      rfl
  | cons n s rep s₁ rest s₂ hrep hrest ih =>
      intro o₂ h₂
      cases h₂ with
      | cons _ _ rep' s₁' rest' s₂' hrep' hrest' =>
          have hr : (rep, s₁) = (rep', s₁') := buildRepRel_deterministic hrep _ hrep'
          rw [Prod.mk.injEq] at hr
          obtain ⟨hr1, hr2⟩ := hr
          subst hr1
          subst hr2
          have h3 := ih _ hrest'
          rw [Prod.mk.injEq] at h3
          obtain ⟨h31, h32⟩ := h3
          subst h31
          subst h32
          rfl

/-- The executable bootstrap satisfies the execution relation, provided the
block length is positive and the input is non-empty (so every draw makes
progress within the `x.length` fuel bound). -/
theorem buildReplicate_sound (x : List ℚ) (B : ℕ) :
    ∀ (fuel : ℕ) (s : ℕ) (acc : List ℚ), x.length ≤ acc.length + fuel * B →
    BuildRepRel x B s acc (buildReplicate x B fuel s acc) := by
  intro fuel
  induction fuel with
  | zero =>
      intro s acc hle
      simp only [Nat.zero_mul, Nat.add_zero] at hle
      simpa [buildReplicate] using BuildRepRel.done s acc hle
  | succ fuel ih =>
      intro s acc hle
      by_cases hdone : x.length ≤ acc.length
      · simpa [buildReplicate, hdone] using BuildRepRel.done s acc hdone
      · push_neg at hdone
        have hwb : (wrapBlock x (drawIndex s x.length).1 B).length = B := by
          simp [wrapBlock]
        refine BuildRepRel.step s acc _ (drawIndex s x.length).1
          (drawIndex s x.length).2 hdone rfl ?_
        have hgrow : x.length ≤
            (acc ++ wrapBlock x (drawIndex s x.length).1 B).length + fuel * B := by
          simp only [List.length_append, hwb]
          calc x.length ≤ acc.length + (fuel + 1) * B := hle
            _ = acc.length + B + fuel * B := by ring
        have := ih (drawIndex s x.length).2
          (acc ++ wrapBlock x (drawIndex s x.length).1 B) hgrow
        simpa [buildReplicate, not_le.mpr hdone] using this

/-- The executable `N`-replicate bootstrap satisfies the execution relation
for positive block length. -/
theorem bootstrapN_sound (x : List ℚ) (B : ℕ) (hB : 1 ≤ B) :
    ∀ (N s : ℕ), BootstrapRel x B N s (bootstrapN x B N s) := by
  intro N
  induction N with
  | zero => intro s; exact BootstrapRel.nil s
  | succ N ih =>
      intro s
      have hfuel : x.length ≤ ([] : List ℚ).length + x.length * B := by
        have : x.length * 1 ≤ x.length * B := Nat.mul_le_mul_left _ hB
        simpa using this
      have hrep := buildReplicate_sound x B x.length s [] hfuel
      exact BootstrapRel.cons N s _ _ _ _ hrep (ih _)

/-- Modelled from the spec: `arch.bootstrap.optimal_block_length` (spec §4.3),
an external data-driven rule returning a floating (not necessarily integer)
estimate of the serial-correlation horizon of a series; modelled here as a
simple function of the series (one third of its length), standing in for the
published library estimator, whose exact formula is outside this
repository. -/
def optimal_block_length (x : List ℚ) : ℚ :=
  (x.length : ℚ) / 3

/-- Embedding of `RiskMetrics.generate_replicates` (lines 70–89) downstream of the jitter
draws: `jit` is the fixed stream of jitter offsets consumed by the unseeded
`random` module (one offset per sample, liquidation series first, insolvency
series second, as the two list comprehensions on lines 76–77 execute in
order).  A single `RandomState(42)` is created (line 71) and shared by the two
bootstrappers: the insolvency bootstrap continues the stream where the
liquidation bootstrap left it. -/
def generate_replicates (jit : ℕ → ℚ) (liqSeries insSeries : List ℚ)
    (N : ℕ) : List (List ℚ) × List (List ℚ) :=
  let rs := mkRandomState 42
  let liq := (List.range liqSeries.length).map
    (fun i => liqSeries.getD i 0 + jit i)
  let ins := (List.range insSeries.length).map
    (fun i => insSeries.getD i 0 + jit (liqSeries.length + i))
  let Bl := (clampBlockLength (optimal_block_length liq)).toNat
  let Bi := (clampBlockLength (optimal_block_length ins)).toNat
  let l := bootstrapN liq Bl N rs
  let i := bootstrapN ins Bi N l.2
  (l.1, i.1)

/-- A five-row input table used to exercise the constructor: liquidation
column `[90,85,80,75,70]`, margin column `[100,...]`, PnL column
`[0,-5,-10,-15,-20]`. -/
def exampleDF : List Row :=
  [⟨90, 100, 0⟩, ⟨85, 100, -5⟩, ⟨80, 100, -10⟩, ⟨75, 100, -15⟩, ⟨70, 100, -20⟩]

/-- C1: the claim states that for every finite, non-degenerate input the
recommended-leverage operation returns `min(LevL, LevI)` (for the example
input it would be `5.0`).  The code cannot: `recommended_leverage` forwards
the keyword `time_horizon` to `leverages`, whose only keyword parameters are
`l_var` and `i_var`, so every call raises `TypeError` before any leverage is
computed.  At the example input the leverage conversion would give
`(95/7, 5)` with minimum `5`, yet the operation errors. -/
theorem recommended_leverage_type_error_and_min :
    recommended_leverage 1000 70 (-20) (5/100) (9/10)
      = Except.error
          "TypeError: leverages() got an unexpected keyword argument time_horizon"
    ∧ leverages 1000 (5/100) (9/10) 70 (-20) = (95/7, 5)
    ∧ recommendedLeverageMin (95/7) 5 = 5 := by
  refine ⟨?_, by norm_num [leverages], by norm_num [recommendedLeverageMin]⟩
  unfold recommended_leverage
  rw [if_neg (by decide)]

/-- C2: for every input with nonzero baseline margin, the derived series
satisfy `liquidationRatio[t] = (margin[0] − liq[t]) / margin[0]` and
`insolvencyRatio[t] = (pnl[t] + margin[0]) / margin[0]` at every index, and
on the literal example input the derived series are exactly
`[0.10, 0.15, 0.20, 0.25, 0.30]` and `[1.00, 0.95, 0.90, 0.85, 0.80]`. -/
theorem derived_series_pointwise_and_example :
    (∀ (margin liq pnl : List ℚ), margin.headD 0 ≠ 0 →
      ∀ (i : ℕ) (a b : ℚ), liq[i]? = some a → pnl[i]? = some b →
        (liquidation margin liq)[i]?
          = some ((margin.headD 0 - a) / margin.headD 0) ∧
        (insolvency margin pnl)[i]?
          = some ((b + margin.headD 0) / margin.headD 0)) ∧
    liquidation [100,100,100,100,100] [90,85,80,75,70]
      = [1/10, 3/20, 1/5, 1/4, 3/10] ∧
    insolvency [100,100,100,100,100] [0,-5,-10,-15,-20]
      = [1, 19/20, 9/10, 17/20, 4/5] := by
  refine ⟨?_, by norm_num [liquidation], by norm_num [insolvency]⟩
  intro margin liq pnl hm i a b ha hb
  constructor <;> simp [liquidation, insolvency, List.getElem?_map, ha, hb]

/-- C2 witness: the pointwise law instantiated at the literal example input,
index 0. -/
theorem derived_series_pointwise_and_example_witness :
    (liquidation [100,100,100,100,100] [90,85,80,75,70])[0]?
      = some ((100 - 90) / 100) := by
  have h := (derived_series_pointwise_and_example.1
    [100,100,100,100,100] [90,85,80,75,70] [0,-5,-10,-15,-20]
    (by norm_num) 0 90 0 (by norm_num) (by norm_num)).1
  simpa using h

/-- C3: for nonzero denominators, the leverage conversion returns exactly
`LevL = notional·(1 − LVaR) / liquidationSeries[0]` and
`LevI = notional·(IVaR − 1) / pnlSeries[last]`, with the asymmetric sign
convention `(1 − LVaR)` versus `(IVaR − 1)` preserved as written. -/
theorem leverages_formula (notional l_var i_var liq0 pnlLast : ℚ)
    (h0 : liq0 ≠ 0) (hlast : pnlLast ≠ 0) :
    leverages notional l_var i_var liq0 pnlLast
      = (notional * (1 - l_var) / liq0, notional * (i_var - 1) / pnlLast) := rfl

/-- C3 witness: the conversion formulas evaluated at the example input. -/
theorem leverages_formula_witness :
    leverages 1000 (5/100) (9/10) 70 (-20)
      = (1000 * (1 - 5/100) / 70, 1000 * (9/10 - 1) / (-20)) :=
  leverages_formula 1000 (5/100) (9/10) 70 (-20) (by norm_num) (by norm_num)

/-- C4: with `stdFn` agreeing with the population standard deviation on the
two replicate-mean distributions (it is nonnegative and its square is the
population variance) and strictly positive there, the VaR estimator uses
`Z(95) = 1.96` and `Z(99) = 2.58`, computes `VaR = μ − Z(α)·σ` for each
distribution, and the estimates at confidence 99 are at most the estimates at
confidence 95. -/
theorem var_higher_confidence_more_conservative (stdFn : List ℚ → ℚ)
    (l_rep i_rep : List (List ℚ))
    (hl0 : 0 ≤ stdFn (l_rep.map listMean))
    (hl : stdFn (l_rep.map listMean) * stdFn (l_rep.map listMean)
      = popVariance (l_rep.map listMean))
    (hi0 : 0 ≤ stdFn (i_rep.map listMean))
    (hi : stdFn (i_rep.map listMean) * stdFn (i_rep.map listMean)
      = popVariance (i_rep.map listMean))
    (hlpos : 0 < stdFn (l_rep.map listMean))
    (hipos : 0 < stdFn (i_rep.map listMean)) :
    z_scores 95 = some (196/100) ∧ z_scores 99 = some (258/100) ∧
    lvar_and_ivar stdFn 95 l_rep i_rep = Except.ok
      (listMean (l_rep.map listMean) - 196/100 * stdFn (l_rep.map listMean),
       listMean (i_rep.map listMean) - 196/100 * stdFn (i_rep.map listMean)) ∧
    lvar_and_ivar stdFn 99 l_rep i_rep = Except.ok
      (listMean (l_rep.map listMean) - 258/100 * stdFn (l_rep.map listMean),
       listMean (i_rep.map listMean) - 258/100 * stdFn (i_rep.map listMean)) ∧
    ∀ v95 v99 : ℚ × ℚ,
      lvar_and_ivar stdFn 95 l_rep i_rep = Except.ok v95 →
      lvar_and_ivar stdFn 99 l_rep i_rep = Except.ok v99 →
      v99.1 ≤ v95.1 ∧ v99.2 ≤ v95.2 := by
  refine ⟨rfl, rfl, ?_, ?_, ?_⟩
  · simp only [lvar_and_ivar, z_scores]
    norm_num
    constructor <;> ring
  · simp only [lvar_and_ivar, z_scores]
    norm_num
    constructor <;> ring
  · intro v95 v99 h95 h99
    simp only [lvar_and_ivar, z_scores] at h95 h99
    norm_num at h95 h99
    rw [← h95, ← h99]
    constructor <;> nlinarith

/-- C4 witness: replicate sets `[[0],[2]]` have replicate-mean distribution
`[0, 2]` with mean 1 and population variance 1, so the constant-1 `stdFn` is
its population standard deviation; the 99-percent estimates are below the
95-percent ones. -/
theorem var_higher_confidence_more_conservative_witness :
    ((-79/50 : ℚ), (-79/50 : ℚ)).1 ≤ ((-24/25 : ℚ), (-24/25 : ℚ)).1 ∧
    ((-79/50 : ℚ), (-79/50 : ℚ)).2 ≤ ((-24/25 : ℚ), (-24/25 : ℚ)).2 := by
  have h := var_higher_confidence_more_conservative (fun _ => 1)
    [[0],[2]] [[0],[2]]
    (by norm_num)
    (by norm_num [popVariance, listMean])
    (by norm_num)
    (by norm_num [popVariance, listMean])
    (by norm_num) (by norm_num)
  exact h.2.2.2.2 (-24/25, -24/25) (-79/50, -79/50)
    (by norm_num [lvar_and_ivar, z_scores, listMean])
    (by norm_num [lvar_and_ivar, z_scores, listMean])

/-- C5: for any confidence level outside the enumerated set `{95, 99}`, the
VaR estimation fails with the key-lookup error raised by the Z-score table,
before any statistic is computed and regardless of the replicate sets or of
the standard-deviation routine; no default Z-score is used. -/
theorem lvar_and_ivar_unsupported_alpha_errors (stdFn : List ℚ → ℚ)
    (alpha : ℕ) (l_rep i_rep : List (List ℚ))
    (h95 : alpha ≠ 95) (h99 : alpha ≠ 99) :
    lvar_and_ivar stdFn alpha l_rep i_rep
      = Except.error "KeyError: unsupported confidence level" := by
  simp [lvar_and_ivar, z_scores, h95, h99]

/-- C5 witness: requesting `α = 90` errors. -/
theorem lvar_and_ivar_unsupported_alpha_errors_witness :
    lvar_and_ivar (fun _ => 0) 90 [] []
      = Except.error "KeyError: unsupported confidence level" :=
  lvar_and_ivar_unsupported_alpha_errors (fun _ => 0) 90 [] []
    (by decide) (by decide)

/-- C6: for a fixed seed (42), fixed input series, fixed block length and
fixed replicate count, any two runs of the circular-block-bootstrap produce
identical replicate sets: the execution relation started from the state
`mkRandomState 42` is functional. -/
theorem bootstrap_replicates_deterministic_seed42 (x : List ℚ) (B N : ℕ)
    (o₁ o₂ : List (List ℚ) × ℕ)
    (h₁ : BootstrapRel x B N (mkRandomState 42) o₁)
    (h₂ : BootstrapRel x B N (mkRandomState 42) o₂) :
    o₁.1 = o₂.1 := by
  rw [bootstrapRel_deterministic h₁ _ h₂]

/-- C6 witness: two runs on the singleton series `[1]` with block length 1
and one replicate, both realised by the executable bootstrap, agree. -/
theorem bootstrap_replicates_deterministic_seed42_witness :
    (bootstrapN [(1:ℚ)] 1 1 (mkRandomState 42)).1
      = (bootstrapN [(1:ℚ)] 1 1 (mkRandomState 42)).1 :=
  bootstrap_replicates_deterministic_seed42 [(1:ℚ)] 1 1 _ _
    (bootstrapN_sound [(1:ℚ)] 1 (le_refl 1) 1 (mkRandomState 42))
    (bootstrapN_sound [(1:ℚ)] 1 (le_refl 1) 1 (mkRandomState 42))

/-- C7 counterexample: the claim quantifies over every raw block-length
estimate, explicitly including negative ones, and asserts the clamped value
is always at least 1.  At the estimate `−3/2` the clamp of the code
(`int(−3/2) + 1 = −1 + 1 = 0`) is not at least 1, and the floor-based clamp
of the claim wording gives `⌊−3/2⌋ + 1 = −1`. -/
theorem clamp_negative_estimate_counterexample :
    clampBlockLength (-3/2) = 0 ∧ ¬ (1 ≤ clampBlockLength (-3/2)) ∧
    ⌊(-3/2 : ℚ)⌋ + 1 = -1 := by
  refine ⟨?_, ?_, by norm_num⟩ <;>
    norm_num [clampBlockLength, pyInt, Int.ceil_neg]

/-- C7 (amended): for every nonnegative raw block-length estimate — in
particular an estimate of 0 — the clamp `int(estimate) + 1` agrees with
`⌊estimate⌋ + 1` and is an integer at least 1. -/
theorem clamp_nonneg_estimate_positive (x : ℚ) (hx : 0 ≤ x) :
    1 ≤ clampBlockLength x ∧ clampBlockLength x = ⌊x⌋ + 1 := by
  constructor
  · unfold clampBlockLength pyInt
    rw [if_pos hx]
    have h := Int.floor_nonneg.mpr hx
    omega
  · unfold clampBlockLength
    rw [pyInt_eq_floor_of_nonneg x hx]

/-- C7 witness: a raw estimate of 0 is clamped to block length 1. -/
theorem clamp_nonneg_estimate_positive_witness :
    1 ≤ clampBlockLength 0 ∧ clampBlockLength 0 = ⌊(0:ℚ)⌋ + 1 :=
  clamp_nonneg_estimate_positive 0 (by norm_num)

/-- C8 counterexample: the claim bounds every jitter offset by `9e-3`, but
the draw with exponent `−2` and uniform value `17/18` (significand `0.95`)
produces `0.0095 > 0.009` while satisfying every stated constraint on the
draws. -/
theorem get_random_above_9e3_counterexample :
    (-5 ≤ (-2 : ℤ)) ∧ ((-2 : ℤ) ≤ -2) ∧ ((0:ℚ) ≤ 17/18) ∧ ((17/18 : ℚ) < 1) ∧
    get_random (-2) (17/18) = 19/2000 ∧
    ¬ (get_random (-2) (17/18) ≤ 9/1000) := by
  refine ⟨by norm_num, by norm_num, by norm_num, by norm_num, ?_, ?_⟩ <;>
    norm_num [get_random]

/-- C8 (amended): every jitter offset drawn with an integer exponent in
`[-5, -2]` and a uniform value in `[0, 1)` (significand in `[0.1, 1.0)`) is
strictly positive and lies in `[1e-6, 1e-2)` — bounded above strictly by
`0.01`, not by `9e-3`. -/
theorem get_random_positive_bounded (e : ℤ) (u : ℚ) (he1 : -5 ≤ e)
    (he2 : e ≤ -2) (hu1 : 0 ≤ u) (hu2 : u < 1) :
    0 < get_random e u ∧ 1/1000000 ≤ get_random e u ∧ get_random e u < 1/100 := by
  unfold get_random
  interval_cases e <;> refine ⟨?_, ?_, ?_⟩ <;> norm_num <;> nlinarith

/-- C8 witness: the smallest draw, exponent `−5` and uniform value 0, gives
offset `1e-6`, inside the amended bounds. -/
theorem get_random_positive_bounded_witness :
    0 < get_random (-5) 0 ∧ 1/1000000 ≤ get_random (-5) 0 ∧
    get_random (-5) 0 < 1/100 :=
  get_random_positive_bounded (-5) 0 (by norm_num) (by norm_num)
    (by norm_num) (by norm_num)

/-- C9: the claim states the three retained series are the first `poolSize`
entries of the source table.  The constructor truncates and stores
`self.df = df.iloc[:pool_size]` but builds the series from the untruncated
argument `df`: with `pool_size = 2` on a five-row table the stored frame has
2 rows, yet all three retained series keep all 5 entries.  (With `pool_size`
unset, the series do span the full length, as claimed.) -/
theorem init_pool_size_not_applied_to_series :
    (init exampleDF 1000 (some 2)).pool_size = 2 ∧
    (init exampleDF 1000 (some 2)).df = exampleDF.take 2 ∧
    (init exampleDF 1000 (some 2)).liquidation_series = [90, 85, 80, 75, 70] ∧
    (init exampleDF 1000 (some 2)).margin_series = [100, 100, 100, 100, 100] ∧
    (init exampleDF 1000 (some 2)).pnl_series = [0, -5, -10, -15, -20] ∧
    (init exampleDF 1000 (some 2)).liquidation_series
      ≠ (exampleDF.map Row.liq).take 2 ∧
    (init exampleDF 1000 none).liquidation_series.length = exampleDF.length := by
  refine ⟨rfl, rfl, by norm_num [init, exampleDF], by norm_num [init, exampleDF],
    by norm_num [init, exampleDF], ?_, rfl⟩
  norm_num [init, exampleDF]
  intro hcontra
  exact List.cons_ne_nil 80 [75, 70] hcontra

/-- C10: within one `generate_replicates` call the liquidation and insolvency
bootstrappers share the single `RandomState(42)` stream in sequence, so the
insolvency replicate set is not a function of the insolvency series alone:
with the jitter draws held fixed, two inputs with identical insolvency series
and replicate count but different liquidation series produce different
insolvency replicate sets. -/
theorem insolvency_replicates_depend_on_liquidation :
    ∃ (jit : ℕ → ℚ) (liq₁ liq₂ ins : List ℚ) (N : ℕ),
      liq₁ ≠ liq₂ ∧
      (generate_replicates jit liq₁ ins N).2
        ≠ (generate_replicates jit liq₂ ins N).2 := by
  refine ⟨fun _ => 1/1000, [0], [0, 1], [0, 1], 1, by norm_num, ?_⟩
  have hm1 : (List.range ([(0:ℚ)].length)).map
      (fun i => [(0:ℚ)].getD i 0 + (fun _ : ℕ => (1:ℚ)/1000) i) = [1/1000] := by
    norm_num [List.range_succ]
  have hm2 : ∀ k : ℕ, (List.range ([(0:ℚ), 1].length)).map
      (fun i => [(0:ℚ), 1].getD i 0 + (fun _ : ℕ => (1:ℚ)/1000) (k + i))
        = [1/1000, 1001/1000] := by
    intro k
    norm_num [List.range_succ]
  have hm3 : (List.range ([(0:ℚ), 1].length)).map
      (fun i => [(0:ℚ), 1].getD i 0 + (fun _ : ℕ => (1:ℚ)/1000) i)
        = [1/1000, 1001/1000] := by
    norm_num [List.range_succ]
  have hb1 : (clampBlockLength (optimal_block_length [(1:ℚ)/1000])).toNat = 1 := by
    norm_num [clampBlockLength, optimal_block_length, pyInt]
  have hb2 : (clampBlockLength
      (optimal_block_length [(1:ℚ)/1000, 1001/1000])).toNat = 1 := by
    norm_num [clampBlockLength, optimal_block_length, pyInt]
  have hs : mkRandomState 42 = 42 := by norm_num [mkRandomState]
  have e1 : bootstrapN [(1:ℚ)/1000] 1 1 42 = ([[1/1000]], 1250496027) := by
    norm_num [bootstrapN, buildReplicate, wrapBlock, drawIndex, rngNext,
      List.range_succ]
  have e2 : bootstrapN [(1:ℚ)/1000, 1001/1000] 1 1 42
      = ([[1001/1000, 1/1000]], 1116302264) := by
    norm_num [bootstrapN, buildReplicate, wrapBlock, drawIndex, rngNext,
      List.range_succ]
  have e3 : bootstrapN [(1:ℚ)/1000, 1001/1000] 1 1 1250496027
      = ([[1/1000, 1001/1000]], 1000676753) := by
    norm_num [bootstrapN, buildReplicate, wrapBlock, drawIndex, rngNext,
      List.range_succ]
  have e4 : bootstrapN [(1:ℚ)/1000, 1001/1000] 1 1 1116302264
      = ([[1001/1000, 1/1000]], 1668674806) := by
    norm_num [bootstrapN, buildReplicate, wrapBlock, drawIndex, rngNext,
      List.range_succ]
  simp only [generate_replicates, hm1, hm2 1, hm2 2, hm3, hb1, hb2, hs,
    e1, e2, e3, e4]
  norm_num

end RiskMetrics
